import Mathlib

/-!
Shallow embedding of the `webgl-snow` particle background (main script
`index.js` plus the vertex and fragment point-sprite shaders).

Floats are modelled as exact rationals.  Calls to `Math.random()` are made
explicit: every generator receives a stream `u : ℕ → ℚ` of draws, with the
convention that particle `i` consumes draws `u (6*i) .. u (6*i+5)` in the
order the source requests them (three position axes, then velocity-Y,
amplitude-X and angle).  A genuine `Math.random()` draw lies in `[0, 1)`;
this is the `UnitStream` hypothesis.  The throwing behaviour of the
`Float32Array` constructor is modelled with `Except`.
-/

namespace WebglSnow

/-- The numeric simulation fields of the `options` configuration object that
the particle attribute generator reads (ranges, velocity, amplitude, angle
bias).  The particle count and the snow/sprite ratio are passed to `render`
separately. -/
structure Options where
  rangeX : ℚ
  rangeY : ℚ
  rangeZ : ℚ
  velocityY : ℚ
  amplitudeX : ℚ
  angleX : ℚ
deriving DecidableEq

/-- The default `options` values from the source (`rangeX: 400, rangeY: 400,
rangeZ: 100, velocityY: 2, amplitudeX: 4, angleX: 0`). -/
def defaultOptions : Options :=
  { rangeX := 400, rangeY := 400, rangeZ := 100
    velocityY := 2, amplitudeX := 4, angleX := 0 }

/-- Source `THREE.MathUtils.randFloat(low, high) = low + Math.random() * (high - low)`;
`u` is the `Math.random()` draw. -/
def randFloat (low high u : ℚ) : ℚ := low + u * (high - low)

/-- Source `THREE.MathUtils.randFloatSpread(range) = range * (0.5 - Math.random())`. -/
def randFloatSpread (range u : ℚ) : ℚ := range * (1 / 2 - u)

/-- JavaScript `Math.round(x)`: it rounds half towards positive infinity,
`Math.round(x) = floor(x + 0.5)`. -/
def mathRound (x : ℚ) : ℤ := ⌊x + 1 / 2⌋

/-- A stream of `Math.random()` outputs: every draw lies in `[0, 1)`. -/
def UnitStream (u : ℕ → ℚ) : Prop := ∀ i, 0 ≤ u i ∧ u i < 1

/-- The buffer geometry built by `newParticleSystem`: the five named
attribute arrays.  `position` is the flat `Float32BufferAttribute` of item
size 3 (three floats per particle); the other four have item size 1. -/
structure ParticleGeometry where
  position : List ℚ
  scale : List ℚ
  velocityY : List ℚ
  amplitudeX : List ℚ
  angle : List ℚ
deriving DecidableEq

/-- A geometry with all five attribute arrays empty. -/
def emptyGeometry : ParticleGeometry :=
  { position := [], scale := [], velocityY := [], amplitudeX := [], angle := [] }

/-- The `BufferAttribute.count` of the position attribute: flat length divided by
the item size 3.  This is the particle count the renderer draws. -/
def ParticleGeometry.size (g : ParticleGeometry) : ℕ := g.position.length / 3

/-- The three position draws of particle `i`: for each axis `j` of
`posOptions = [rangeX, rangeY, rangeZ]` the source pushes
`randFloatSpread(posOptions[j])`. -/
def positionSamples (opts : Options) (u : ℕ → ℚ) (i : ℕ) : List ℚ :=
  [randFloatSpread opts.rangeX (u (6 * i)),
   randFloatSpread opts.rangeY (u (6 * i + 1)),
   randFloatSpread opts.rangeZ (u (6 * i + 2))]

/-- Velocity draw of particle `i`:
`randFloat(-options.velocityY - 1, Math.min(-options.velocityY + 1, 0))`. -/
def velocityYSample (opts : Options) (u : ℕ → ℚ) (i : ℕ) : ℚ :=
  randFloat (-opts.velocityY - 1) (min (-opts.velocityY + 1) 0) (u (6 * i + 3))

/-- Amplitude draw of particle `i`:
`randFloat(Math.max(options.amplitudeX - 1, 0), options.amplitudeX + 1)`. -/
def amplitudeXSample (opts : Options) (u : ℕ → ℚ) (i : ℕ) : ℚ :=
  randFloat (max (opts.amplitudeX - 1) 0) (opts.amplitudeX + 1) (u (6 * i + 4))

/-- Angle draw of particle `i`:
`randFloat(options.angleX - 0.1, options.angleX + 0.1)`. -/
def angleSample (opts : Options) (u : ℕ → ℚ) (i : ℕ) : ℚ :=
  randFloat (opts.angleX - 1 / 10) (opts.angleX + 1 / 10) (u (6 * i + 5))

/-- Source `newParticleSystem(material, particleCount)` for a non-negative count:
the per-particle loop runs `particleCount` times pushing position triples and
the three scalar draws, and the scale array is `new
Float32Array(particleCount).fill(scale)`. -/
def newParticleSystem (opts : Options) (scaleVal : ℚ) (u : ℕ → ℚ)
    (particleCount : ℕ) : ParticleGeometry :=
  { position := (List.range particleCount).flatMap (positionSamples opts u)
    scale := List.replicate particleCount scaleVal
    velocityY := (List.range particleCount).map (velocityYSample opts u)
    amplitudeX := (List.range particleCount).map (amplitudeXSample opts u)
    angle := (List.range particleCount).map (angleSample opts u) }

/-- Allocation `new Float32Array(len)`: a negative length throws
`RangeError: invalid typed array length`; otherwise the array is zero-filled
with `len` slots. -/
def float32ArrayNew (len : ℤ) : Except String (List ℚ) :=
  if len < 0 then Except.error "RangeError: invalid typed array length"
  else Except.ok (List.replicate len.toNat 0)

/-- Function `newParticleSystem` on an arbitrary (possibly negative) integer count,
with the `Float32Array` allocation made explicit.  The `for (let i = 0; i <
particleCount; i++)` loop runs `particleCount.toNat` times. -/
def newParticleSystemChecked (opts : Options) (scaleVal : ℚ) (u : ℕ → ℚ)
    (particleCount : ℤ) : Except String ParticleGeometry :=
  match float32ArrayNew particleCount with
  | Except.error e => Except.error e
  | Except.ok scales =>
      Except.ok
        { position := (List.range particleCount.toNat).flatMap (positionSamples opts u)
          scale := scales.map fun _ => scaleVal
          velocityY := (List.range particleCount.toNat).map (velocityYSample opts u)
          amplitudeX := (List.range particleCount.toNat).map (amplitudeXSample opts u)
          angle := (List.range particleCount.toNat).map (angleSample opts u) }

/-- The particle-system construction inside `render`: the snow system gets
`Math.round(options.particleCount * (1.0 - options.ratio))` particles and the
sprite system `Math.round(options.particleCount * options.ratio)`; both are
added to the scene.  `uSnow` and `uSprite` are the random draws consumed by
the two `newParticleSystem` calls. -/
def render (opts : Options) (particleCount : ℕ) (r : ℚ) (scaleVal : ℚ)
    (uSnow uSprite : ℕ → ℚ) : Except String (ParticleGeometry × ParticleGeometry) :=
  match newParticleSystemChecked opts scaleVal uSnow
      (mathRound ((particleCount : ℚ) * (1 - r))) with
  | Except.error e => Except.error e
  | Except.ok snow =>
      match newParticleSystemChecked opts scaleVal uSprite
          (mathRound ((particleCount : ℚ) * r)) with
      | Except.error e => Except.error e
      | Except.ok sprite => Except.ok (snow, sprite)

/-- Value `posOptions[j]` for axis index `j`: `[options.rangeX, options.rangeY,
options.rangeZ]`. -/
def axisRange (opts : Options) : ℕ → ℚ
  | 0 => opts.rangeX
  | 1 => opts.rangeY
  | _ => opts.rangeZ

/-- The per-child body of `onWindowResize`: the scale attribute is replaced by
`new Float32Array(child.geometry.getAttribute('position').count).fill(scale)`
where the new `scale` is the viewport height; no other attribute is touched. -/
def resizeGeometry (newHeight : ℚ) (g : ParticleGeometry) : ParticleGeometry :=
  { g with scale := List.replicate (g.position.length / 3) newHeight }

/-- Handler `onWindowResize` restricted to its effect on the scene children: every
child's scale buffer is rewritten from the new viewport height. -/
def onWindowResize (newHeight : ℚ) (scene : List ParticleGeometry) :
    List ParticleGeometry :=
  scene.map (resizeGeometry newHeight)

/-- A particle system as held by the scene for resource accounting: the
identity of its buffer geometry and of its material. -/
structure PSystem where
  geomId : ℕ
  matId : ℕ
deriving DecidableEq

/-- Scene contents together with the log of disposed resources. -/
structure SceneState where
  children : List PSystem
  disposedGeoms : List ℕ
  disposedMats : List ℕ
deriving DecidableEq

/-- The `while (scene.children.length > 0)` loop of `remakeSystem`: removes
the first child and disposes its geometry and material, until the scene is
empty.  Returns the disposal logs in removal order. -/
def clearChildren : List PSystem → List ℕ × List ℕ
  | [] => ([], [])
  | child :: rest =>
      let r := clearChildren rest
      (child.geomId :: r.1, child.matId :: r.2)

/-- Source `remakeSystem`: clears and disposes every existing child, then adds the
snow system and the sprite system (built with fresh geometries `newSnowGeom`
and `newSpriteGeom`, reusing the live materials `snowMatId` and
`spriteMatId`). -/
def remakeSystem (scene : List PSystem) (snowMatId spriteMatId : ℕ)
    (newSnowGeom newSpriteGeom : ℕ) : SceneState :=
  let cleared := clearChildren scene
  { children := [{ geomId := newSnowGeom, matId := snowMatId },
                 { geomId := newSpriteGeom, matId := spriteMatId }]
    disposedGeoms := cleared.1
    disposedMats := cleared.2 }

/-- An RGBA texel as sampled by `texture2D`. -/
structure Color4 where
  r : ℚ
  g : ℚ
  b : ℚ
  a : ℚ
deriving DecidableEq

/-- The fragment shader's discard decision: `if (gl_FragColor.a < alphaTest)
discard;` where `gl_FragColor = texture2D(map, gl_PointCoord)`. -/
def fragmentDiscards (sample : Color4) (alphaTest : ℚ) : Bool :=
  decide (sample.a < alphaTest)

/-- GLSL `mod(x, y) = x - y * floor(x / y)`. -/
def glslMod (x y : ℚ) : ℚ := x - y * ⌊x / y⌋

/-- The vertex shader's Y displacement:
`newPos.y = mod(position.y - (uTime * -velocityY * 10.0), rangeY) - rangeY/2.0`. -/
def vertexNewPosY (posY uTime velY rangeY : ℚ) : ℚ :=
  glslMod (posY - uTime * (-velY) * 10) rangeY - rangeY / 2

/-- The vertex shader's X displacement:
`newPos.x += sin(uTime * angle) * cos(uTime * 2.0 * angle) * (amplitudeX * 10.0)`,
with the two trigonometric factors `s = sin(uTime*angle)` and
`c = cos(uTime*2.0*angle)` passed in as values (GLSL evaluates them
externally; each lies in `[-1, 1]`). -/
def vertexNewPosX (posX s c amplX : ℚ) : ℚ := posX + s * c * (amplX * 10)

/-- The observable startup effects of the top-level
`if (WebGL.isWebGLAvailable())` branch. -/
inductive StartupEffect where
  | constructScene
  | constructCamera
  | constructRenderer
  | buildParticleSystems
  | startAnimationLoop
  | appendWarningMessage
deriving DecidableEq

/-- The top-level startup branch: when WebGL is available the scene, camera
and renderer are constructed and `init()`/`render()` build the particle
systems and start the animation loop; otherwise only
`WebGL.getWebGLErrorMessage()` is appended to the container. -/
def startup (webglAvailable : Bool) : List StartupEffect :=
  if webglAvailable then
    [StartupEffect.constructScene, StartupEffect.constructCamera,
     StartupEffect.constructRenderer, StartupEffect.buildParticleSystems,
     StartupEffect.startAnimationLoop]
  else
    [StartupEffect.appendWarningMessage]

/-! ### Helper lemmas -/

theorem newParticleSystemChecked_eq_ok (opts : Options) (scaleVal : ℚ) (u : ℕ → ℚ)
    (n : ℤ) (hn : 0 ≤ n) :
    newParticleSystemChecked opts scaleVal u n
      = Except.ok (newParticleSystem opts scaleVal u n.toNat) := by
  unfold newParticleSystemChecked float32ArrayNew
  rw [if_neg (not_lt.mpr hn)]
  simp [newParticleSystem, List.map_replicate]

theorem length_flatMap_range (f : ℕ → List ℚ) (c : ℕ)
    (hf : ∀ i, (f i).length = c) :
    ∀ n, ((List.range n).flatMap f).length = c * n := by
  intro n
  induction n with
  | zero => simp
  | succ n ih =>
      rw [List.range_succ, List.flatMap_append, List.length_append, ih]
      simp [List.flatMap_cons, hf]
      ring

theorem positionSamples_length (opts : Options) (u : ℕ → ℚ) (i : ℕ) :
    (positionSamples opts u i).length = 3 := rfl

theorem newParticleSystem_position_length (opts : Options) (scaleVal : ℚ)
    (u : ℕ → ℚ) (n : ℕ) :
    (newParticleSystem opts scaleVal u n).position.length = 3 * n :=
  length_flatMap_range (positionSamples opts u) 3 (positionSamples_length opts u) n

theorem newParticleSystem_size (opts : Options) (scaleVal : ℚ) (u : ℕ → ℚ) (n : ℕ) :
    (newParticleSystem opts scaleVal u n).size = n := by
  have h := newParticleSystem_position_length opts scaleVal u n
  unfold ParticleGeometry.size
  omega

theorem randFloat_bounds (low high u : ℚ) (hlh : low ≤ high) (h0 : 0 ≤ u)
    (h1 : u ≤ 1) : low ≤ randFloat low high u ∧ randFloat low high u ≤ high := by
  unfold randFloat
  constructor <;> nlinarith

theorem randFloatSpread_bounds (range u : ℚ) (hR : 0 ≤ range) (h0 : 0 ≤ u)
    (h1 : u ≤ 1) :
    -(range / 2) ≤ randFloatSpread range u ∧ randFloatSpread range u ≤ range / 2 := by
  unfold randFloatSpread
  constructor <;> nlinarith

/-! ### C2: behaviour of the generator on degenerate counts -/

/-- C2 counterexample.  The claim says that a negative count is treated as
zero rather than throwing; in fact `new Float32Array(particleCount)` throws a
`RangeError` for a negative count, so the generator throws at count `-1`. -/
theorem generator_negative_count_throws :
    newParticleSystemChecked defaultOptions 1 (fun _ => 0) (-1)
      = Except.error "RangeError: invalid typed array length" := rfl

/-- C2 (amended): the particle attribute generator never throws for any
non-negative count, and count 0 yields empty attribute buffers; a negative
count, by contrast, throws rather than being treated as zero
(`generator_negative_count_throws`). -/
theorem generator_count_behavior (opts : Options) (scaleVal : ℚ) (u : ℕ → ℚ)
    (n : ℤ) (hn : 0 ≤ n) :
    newParticleSystemChecked opts scaleVal u n
        = Except.ok (newParticleSystem opts scaleVal u n.toNat) ∧
    newParticleSystem opts scaleVal u 0 = emptyGeometry := by
  refine ⟨newParticleSystemChecked_eq_ok opts scaleVal u n hn, ?_⟩
  simp [newParticleSystem, emptyGeometry]

/-- Witness for `generator_count_behavior` at count 2. -/
theorem generator_count_behavior_w :
    (0 : ℤ) ≤ 2 ∧
    (newParticleSystemChecked defaultOptions 1 (fun _ => 0) 2
        = Except.ok (newParticleSystem defaultOptions 1 (fun _ => 0) (2 : ℤ).toNat) ∧
     newParticleSystem defaultOptions 1 (fun _ => 0) 0 = emptyGeometry) :=
  ⟨by decide, generator_count_behavior defaultOptions 1 (fun _ => 0) 2 (by decide)⟩

/-! ### C7: fragment shader discard rule -/

/-- C7: the fragment stage discards exactly when the sampled texture alpha is
strictly below the `alphaTest` uniform, and with `alphaTest = 0` a fragment
with non-negative sampled alpha is never discarded. -/
theorem fragment_discard_iff (sample : Color4) (threshold : ℚ)
    (h : 0 ≤ sample.a) :
    (fragmentDiscards sample threshold = true ↔ sample.a < threshold) ∧
    fragmentDiscards sample 0 = false := by
  constructor
  · simp [fragmentDiscards]
  · simp only [fragmentDiscards, decide_eq_false_iff_not, not_lt]
    exact h

/-- Witness for `fragment_discard_iff` on a fully opaque texel. -/
theorem fragment_discard_iff_w :
    0 ≤ (Color4.mk 1 1 1 1).a ∧
    ((fragmentDiscards (Color4.mk 1 1 1 1) 2 = true ↔ (Color4.mk 1 1 1 1).a < 2) ∧
     fragmentDiscards (Color4.mk 1 1 1 1) 0 = false) :=
  ⟨by decide, fragment_discard_iff (Color4.mk 1 1 1 1) 2 (by decide)⟩

/-! ### C9: startup capability gate -/

/-- C9: when the WebGL capability check fails, the only startup effect is
appending the warning message element (no scene, camera, renderer, particle
systems, or animation loop); when it succeeds the warning is never appended
and the scene is built and animated. -/
theorem startup_capability_gate :
    startup false = [StartupEffect.appendWarningMessage] ∧
    (startup true).contains StartupEffect.appendWarningMessage = false ∧
    (startup false).contains StartupEffect.constructScene = false ∧
    (startup false).contains StartupEffect.constructCamera = false ∧
    (startup false).contains StartupEffect.constructRenderer = false ∧
    (startup false).contains StartupEffect.buildParticleSystems = false ∧
    (startup false).contains StartupEffect.startAnimationLoop = false ∧
    (startup true).contains StartupEffect.constructScene = true ∧
    (startup true).contains StartupEffect.buildParticleSystems = true ∧
    (startup true).contains StartupEffect.startAnimationLoop = true := by
  decide

/-! ### C10: attribute buffer consistency -/

/-- C10: for every non-negative count `n` the generated geometry's buffers
are mutually consistent: the position buffer holds `3 * n` floats (item size
3) and the scale, velocity-Y, amplitude-X and angle buffers hold `n` floats
each, so every attribute reports the same particle count `n`. -/
theorem attribute_buffer_consistency (opts : Options) (scaleVal : ℚ)
    (u : ℕ → ℚ) (n : ℕ) :
    (newParticleSystem opts scaleVal u n).position.length = 3 * n ∧
    (newParticleSystem opts scaleVal u n).scale.length = n ∧
    (newParticleSystem opts scaleVal u n).velocityY.length = n ∧
    (newParticleSystem opts scaleVal u n).amplitudeX.length = n ∧
    (newParticleSystem opts scaleVal u n).angle.length = n ∧
    (newParticleSystem opts scaleVal u n).size = n := by
  refine ⟨newParticleSystem_position_length opts scaleVal u n, ?_, ?_, ?_, ?_,
    newParticleSystem_size opts scaleVal u n⟩ <;>
    simp [newParticleSystem]

/-! ### C1: snow/sprite split of the particle count -/

/-- C1: building the scene with total count `N` and ratio `r ∈ [0,1]` creates
exactly two particle systems, of `round(N*(1-r))` snow particles and
`round(N*r)` sprite particles, each count individually non-negative. -/
theorem render_split_counts (opts : Options) (total : ℕ) (r : ℚ)
    (scaleVal : ℚ) (uSnow uSprite : ℕ → ℚ) (h0 : 0 ≤ r) (h1 : r ≤ 1) :
    0 ≤ mathRound ((total : ℚ) * (1 - r)) ∧
    0 ≤ mathRound ((total : ℚ) * r) ∧
    render opts total r scaleVal uSnow uSprite
      = Except.ok
          (newParticleSystem opts scaleVal uSnow (mathRound ((total : ℚ) * (1 - r))).toNat,
           newParticleSystem opts scaleVal uSprite (mathRound ((total : ℚ) * r)).toNat) ∧
    (newParticleSystem opts scaleVal uSnow
        (mathRound ((total : ℚ) * (1 - r))).toNat).size
      = (mathRound ((total : ℚ) * (1 - r))).toNat ∧
    (newParticleSystem opts scaleVal uSprite
        (mathRound ((total : ℚ) * r)).toNat).size
      = (mathRound ((total : ℚ) * r)).toNat := by
  have hsnowArg : 0 ≤ (total : ℚ) * (1 - r) :=
    mul_nonneg (Nat.cast_nonneg total) (by linarith)
  have hspriteArg : 0 ≤ (total : ℚ) * r :=
    mul_nonneg (Nat.cast_nonneg total) h0
  have hsnow : 0 ≤ mathRound ((total : ℚ) * (1 - r)) := by
    unfold mathRound
    exact Int.floor_nonneg.mpr (by linarith)
  have hsprite : 0 ≤ mathRound ((total : ℚ) * r) := by
    unfold mathRound
    exact Int.floor_nonneg.mpr (by linarith)
  refine ⟨hsnow, hsprite, ?_,
    newParticleSystem_size opts scaleVal uSnow _,
    newParticleSystem_size opts scaleVal uSprite _⟩
  simp [render, newParticleSystemChecked_eq_ok _ _ _ _ hsnow,
    newParticleSystemChecked_eq_ok _ _ _ _ hsprite]

/-- Witness for `render_split_counts` at `N = 100`, `r = 0.1`: the two
counts evaluate to 90 snow and 10 sprite particles. -/
theorem render_split_counts_w :
    ((0 : ℚ) ≤ 1 / 10 ∧ (1 : ℚ) / 10 ≤ 1) ∧
    ((mathRound ((100 : ℚ) * (1 - 1 / 10))).toNat = 90 ∧
     (mathRound ((100 : ℚ) * (1 / 10))).toNat = 10) ∧
    (0 ≤ mathRound ((100 : ℚ) * (1 - 1 / 10)) ∧
     0 ≤ mathRound ((100 : ℚ) * (1 / 10)) ∧
     render defaultOptions 100 (1 / 10) 1 (fun _ => 0) (fun _ => 0)
       = Except.ok
           (newParticleSystem defaultOptions 1 (fun _ => 0)
              (mathRound ((100 : ℚ) * (1 - 1 / 10))).toNat,
            newParticleSystem defaultOptions 1 (fun _ => 0)
              (mathRound ((100 : ℚ) * (1 / 10))).toNat) ∧
     (newParticleSystem defaultOptions 1 (fun _ => 0)
         (mathRound ((100 : ℚ) * (1 - 1 / 10))).toNat).size
       = (mathRound ((100 : ℚ) * (1 - 1 / 10))).toNat ∧
     (newParticleSystem defaultOptions 1 (fun _ => 0)
         (mathRound ((100 : ℚ) * (1 / 10))).toNat).size
       = (mathRound ((100 : ℚ) * (1 / 10))).toNat) := by
  refine ⟨⟨by norm_num, by norm_num⟩, ⟨?_, ?_⟩,
    render_split_counts defaultOptions 100 (1 / 10) 1 (fun _ => 0) (fun _ => 0)
      (by norm_num) (by norm_num)⟩
  · have h : mathRound ((100 : ℚ) * (1 - 1 / 10)) = 90 := by
      unfold mathRound
      rw [Int.floor_eq_iff]
      norm_num
    rw [h]
    rfl
  · have h : mathRound ((100 : ℚ) * (1 / 10)) = 10 := by
      unfold mathRound
      rw [Int.floor_eq_iff]
      norm_num
    rw [h]
    rfl

/-! ### C3: velocity and amplitude sampling bounds -/

/-- C3: for every particle generated with configured velocity magnitude
`v = opts.velocityY ≥ 0` and amplitude `a = opts.amplitudeX ≥ 0`, the sampled
velocity-Y lies in `[-(v+1), min (-v+1) 0]` and the sampled amplitude-X lies
in `[max (a-1) 0, a+1]`, hence is never negative. -/
theorem velocity_amplitude_bounds (opts : Options) (scaleVal : ℚ) (u : ℕ → ℚ)
    (n : ℕ) (hu : UnitStream u) (hv : 0 ≤ opts.velocityY)
    (ha : 0 ≤ opts.amplitudeX) :
    (∀ x ∈ (newParticleSystem opts scaleVal u n).velocityY,
        -(opts.velocityY + 1) ≤ x ∧ x ≤ min (-opts.velocityY + 1) 0) ∧
    (∀ x ∈ (newParticleSystem opts scaleVal u n).amplitudeX,
        max (opts.amplitudeX - 1) 0 ≤ x ∧ x ≤ opts.amplitudeX + 1 ∧ 0 ≤ x) := by
  constructor
  · intro x hx
    simp only [newParticleSystem, List.mem_map, List.mem_range] at hx
    obtain ⟨i, -, rfl⟩ := hx
    have hdraw := hu (6 * i + 3)
    have hlh : -opts.velocityY - 1 ≤ min (-opts.velocityY + 1) 0 :=
      le_min (by linarith) (by linarith)
    have hb := randFloat_bounds _ _ _ hlh hdraw.1 hdraw.2.le
    unfold velocityYSample
    exact ⟨by have := hb.1; linarith, hb.2⟩
  · intro x hx
    simp only [newParticleSystem, List.mem_map, List.mem_range] at hx
    obtain ⟨i, -, rfl⟩ := hx
    have hdraw := hu (6 * i + 4)
    have hlh : max (opts.amplitudeX - 1) 0 ≤ opts.amplitudeX + 1 :=
      max_le (by linarith) (by linarith)
    have hb := randFloat_bounds _ _ _ hlh hdraw.1 hdraw.2.le
    unfold amplitudeXSample
    exact ⟨hb.1, hb.2, le_trans (le_max_right _ 0) hb.1⟩

/-- Witness for `velocity_amplitude_bounds` using the default configuration
(`velocityY = 2`, `amplitudeX = 4`) and the constant-zero draw stream. -/
theorem velocity_amplitude_bounds_w :
    UnitStream (fun _ => 0) ∧ 0 ≤ defaultOptions.velocityY ∧
    0 ≤ defaultOptions.amplitudeX ∧
    ((∀ x ∈ (newParticleSystem defaultOptions 1 (fun _ => 0) 2).velocityY,
        -(defaultOptions.velocityY + 1) ≤ x ∧
        x ≤ min (-defaultOptions.velocityY + 1) 0) ∧
     (∀ x ∈ (newParticleSystem defaultOptions 1 (fun _ => 0) 2).amplitudeX,
        max (defaultOptions.amplitudeX - 1) 0 ≤ x ∧
        x ≤ defaultOptions.amplitudeX + 1 ∧ 0 ≤ x)) :=
  ⟨fun _ => ⟨le_rfl, by norm_num⟩, by decide, by decide,
    velocity_amplitude_bounds defaultOptions 1 (fun _ => 0) 2
      (fun _ => ⟨le_rfl, by norm_num⟩) (by decide) (by decide)⟩

/-! ### C5: resize rewrites only the scale buffer -/

/-- C5: after a resize to viewport height `newHeight`, for every particle
system in the scene, every slot of its scale buffer equals `newHeight`, the
scale buffer has one slot per particle, and the position, velocity-Y,
amplitude-X and angle buffers — and hence the particle count — are
unchanged.  The scene size is also unchanged. -/
theorem resize_scale_update (newHeight : ℚ) (scene : List ParticleGeometry)
    (i : ℕ) (hi : i < scene.length) :
    (onWindowResize newHeight scene).length = scene.length ∧
    (∀ x ∈ ((onWindowResize newHeight scene).getD i emptyGeometry).scale,
        x = newHeight) ∧
    ((onWindowResize newHeight scene).getD i emptyGeometry).scale.length
        = (scene.getD i emptyGeometry).size ∧
    ((onWindowResize newHeight scene).getD i emptyGeometry).position
        = (scene.getD i emptyGeometry).position ∧
    ((onWindowResize newHeight scene).getD i emptyGeometry).velocityY
        = (scene.getD i emptyGeometry).velocityY ∧
    ((onWindowResize newHeight scene).getD i emptyGeometry).amplitudeX
        = (scene.getD i emptyGeometry).amplitudeX ∧
    ((onWindowResize newHeight scene).getD i emptyGeometry).angle
        = (scene.getD i emptyGeometry).angle ∧
    ((onWindowResize newHeight scene).getD i emptyGeometry).size
        = (scene.getD i emptyGeometry).size := by
  have hlen : (onWindowResize newHeight scene).length = scene.length := by
    simp [onWindowResize]
  have hi' : i < (onWindowResize newHeight scene).length := by rwa [hlen]
  rw [List.getD_eq_getElem _ _ hi', List.getD_eq_getElem _ _ hi]
  simp only [onWindowResize, List.getElem_map]
  refine ⟨hlen, ?_, ?_, rfl, rfl, rfl, rfl, ?_⟩
  · intro x hx
    exact List.eq_of_mem_replicate hx
  · simp [resizeGeometry, ParticleGeometry.size]
  · simp [resizeGeometry, ParticleGeometry.size]

/-- Witness for `resize_scale_update` on a one-system scene resized to
height 768. -/
theorem resize_scale_update_w :
    0 < [ParticleGeometry.mk [1, 2, 3] [4] [5] [6] [7]].length ∧
    ((onWindowResize 768 [ParticleGeometry.mk [1, 2, 3] [4] [5] [6] [7]]).length
        = [ParticleGeometry.mk [1, 2, 3] [4] [5] [6] [7]].length ∧
     (∀ x ∈ ((onWindowResize 768
            [ParticleGeometry.mk [1, 2, 3] [4] [5] [6] [7]]).getD 0
              emptyGeometry).scale, x = 768) ∧
     ((onWindowResize 768 [ParticleGeometry.mk [1, 2, 3] [4] [5] [6] [7]]).getD 0
          emptyGeometry).scale.length
        = ([ParticleGeometry.mk [1, 2, 3] [4] [5] [6] [7]].getD 0
            emptyGeometry).size ∧
     ((onWindowResize 768 [ParticleGeometry.mk [1, 2, 3] [4] [5] [6] [7]]).getD 0
          emptyGeometry).position
        = ([ParticleGeometry.mk [1, 2, 3] [4] [5] [6] [7]].getD 0
            emptyGeometry).position ∧
     ((onWindowResize 768 [ParticleGeometry.mk [1, 2, 3] [4] [5] [6] [7]]).getD 0
          emptyGeometry).velocityY
        = ([ParticleGeometry.mk [1, 2, 3] [4] [5] [6] [7]].getD 0
            emptyGeometry).velocityY ∧
     ((onWindowResize 768 [ParticleGeometry.mk [1, 2, 3] [4] [5] [6] [7]]).getD 0
          emptyGeometry).amplitudeX
        = ([ParticleGeometry.mk [1, 2, 3] [4] [5] [6] [7]].getD 0
            emptyGeometry).amplitudeX ∧
     ((onWindowResize 768 [ParticleGeometry.mk [1, 2, 3] [4] [5] [6] [7]]).getD 0
          emptyGeometry).angle
        = ([ParticleGeometry.mk [1, 2, 3] [4] [5] [6] [7]].getD 0
            emptyGeometry).angle ∧
     ((onWindowResize 768 [ParticleGeometry.mk [1, 2, 3] [4] [5] [6] [7]]).getD 0
          emptyGeometry).size
        = ([ParticleGeometry.mk [1, 2, 3] [4] [5] [6] [7]].getD 0
            emptyGeometry).size) :=
  ⟨by decide,
    resize_scale_update 768 [ParticleGeometry.mk [1, 2, 3] [4] [5] [6] [7]] 0
      (by decide)⟩

/-! ### C6: full rebuild disposes and replaces -/

theorem clearChildren_eq (l : List PSystem) :
    clearChildren l = (l.map PSystem.geomId, l.map PSystem.matId) := by
  induction l with
  | nil => rfl
  | cons c rest ih => simp [clearChildren, ih]

/-- C6: `remakeSystem` removes and disposes every prior particle system's
geometry and material, and afterwards the scene contains exactly the two
newly built systems; since the new geometries are fresh, no scene child
references a disposed geometry buffer. -/
theorem remake_disposes_and_replaces (scene : List PSystem)
    (snowMatId spriteMatId g1 g2 : ℕ)
    (h1 : g1 ∉ scene.map PSystem.geomId) (h2 : g2 ∉ scene.map PSystem.geomId) :
    (remakeSystem scene snowMatId spriteMatId g1 g2).children
        = [PSystem.mk g1 snowMatId, PSystem.mk g2 spriteMatId] ∧
    (remakeSystem scene snowMatId spriteMatId g1 g2).disposedGeoms
        = scene.map PSystem.geomId ∧
    (remakeSystem scene snowMatId spriteMatId g1 g2).disposedMats
        = scene.map PSystem.matId ∧
    ∀ c ∈ (remakeSystem scene snowMatId spriteMatId g1 g2).children,
        c.geomId ∉ (remakeSystem scene snowMatId spriteMatId g1 g2).disposedGeoms := by
  refine ⟨rfl, ?_, ?_, ?_⟩
  · simp [remakeSystem, clearChildren_eq]
  · simp [remakeSystem, clearChildren_eq]
  · intro c hc
    simp only [remakeSystem, clearChildren_eq, List.mem_cons,
      List.not_mem_nil, or_false] at hc ⊢
    rcases hc with rfl | rfl
    · exact h1
    · exact h2

/-- Witness for `remake_disposes_and_replaces`: a two-system scene rebuilt
with fresh geometries 2 and 3. -/
theorem remake_disposes_and_replaces_w :
    (2 ∉ [PSystem.mk 0 10, PSystem.mk 1 11].map PSystem.geomId) ∧
    (3 ∉ [PSystem.mk 0 10, PSystem.mk 1 11].map PSystem.geomId) ∧
    ((remakeSystem [PSystem.mk 0 10, PSystem.mk 1 11] 10 11 2 3).children
        = [PSystem.mk 2 10, PSystem.mk 3 11] ∧
     (remakeSystem [PSystem.mk 0 10, PSystem.mk 1 11] 10 11 2 3).disposedGeoms
        = [PSystem.mk 0 10, PSystem.mk 1 11].map PSystem.geomId ∧
     (remakeSystem [PSystem.mk 0 10, PSystem.mk 1 11] 10 11 2 3).disposedMats
        = [PSystem.mk 0 10, PSystem.mk 1 11].map PSystem.matId ∧
     ∀ c ∈ (remakeSystem [PSystem.mk 0 10, PSystem.mk 1 11] 10 11 2 3).children,
        c.geomId ∉
          (remakeSystem [PSystem.mk 0 10, PSystem.mk 1 11] 10 11 2 3).disposedGeoms) :=
  ⟨by decide, by decide,
    remake_disposes_and_replaces [PSystem.mk 0 10, PSystem.mk 1 11] 10 11 2 3
      (by decide) (by decide)⟩

/-! ### C4: per-axis position bounds -/

theorem getD_flatMap_range (f : ℕ → List ℚ) (c : ℕ)
    (hf : ∀ i, (f i).length = c) :
    ∀ n k, k < c * n →
      ((List.range n).flatMap f).getD k 0 = (f (k / c)).getD (k % c) 0 := by
  intro n
  induction n with
  | zero =>
      intro k hk
      simp at hk
  | succ n ih =>
      intro k hk
      have hc : 0 < c := by
        rcases Nat.eq_zero_or_pos c with h | h
        · subst h
          simp at hk
        · exact h
      rw [List.range_succ, List.flatMap_append]
      have hlen : ((List.range n).flatMap f).length = c * n :=
        length_flatMap_range f c hf n
      by_cases hkn : k < c * n
      · rw [List.getD_append _ _ _ _ (by rw [hlen]; exact hkn)]
        exact ih k hkn
      · push_neg at hkn
        rw [List.getD_append_right _ _ _ _ (by rw [hlen]; exact hkn), hlen]
        obtain ⟨m, rfl⟩ := Nat.exists_eq_add_of_le hkn
        have hm : m < c := by
          rwa [Nat.mul_succ, Nat.add_lt_add_iff_left] at hk
        rw [List.flatMap_cons, List.flatMap_nil, List.append_nil,
          Nat.add_sub_cancel_left, Nat.mul_add_div hc, Nat.div_eq_of_lt hm,
          Nat.add_zero, Nat.mul_add_mod, Nat.mod_eq_of_lt hm]

/-- C4: every slot `k` of the flat position buffer (axis `k % 3`:
0 = X, 1 = Y, 2 = Z) lies within `±(range/2)` of the configured range for its
axis, each axis sampled from its own independent draw of the stream. -/
theorem position_within_range (opts : Options) (scaleVal : ℚ) (u : ℕ → ℚ)
    (n k : ℕ) (hu : UnitStream u) (hx : 0 ≤ opts.rangeX)
    (hy : 0 ≤ opts.rangeY) (hz : 0 ≤ opts.rangeZ)
    (hk : k < (newParticleSystem opts scaleVal u n).position.length) :
    -(axisRange opts (k % 3) / 2)
        ≤ (newParticleSystem opts scaleVal u n).position.getD k 0 ∧
    (newParticleSystem opts scaleVal u n).position.getD k 0
        ≤ axisRange opts (k % 3) / 2 := by
  rw [newParticleSystem_position_length] at hk
  have hget :
      (newParticleSystem opts scaleVal u n).position.getD k 0
        = (positionSamples opts u (k / 3)).getD (k % 3) 0 := by
    simp only [newParticleSystem]
    exact getD_flatMap_range (positionSamples opts u) 3
      (positionSamples_length opts u) n k hk
  rw [hget]
  have h3 : k % 3 = 0 ∨ k % 3 = 1 ∨ k % 3 = 2 := by omega
  rcases h3 with h | h | h <;> rw [h] <;>
    simp only [positionSamples, axisRange, List.getD_cons_zero,
      List.getD_cons_succ]
  · exact randFloatSpread_bounds _ _ hx (hu (6 * (k / 3))).1
      (hu (6 * (k / 3))).2.le
  · exact randFloatSpread_bounds _ _ hy (hu (6 * (k / 3) + 1)).1
      (hu (6 * (k / 3) + 1)).2.le
  · exact randFloatSpread_bounds _ _ hz (hu (6 * (k / 3) + 2)).1
      (hu (6 * (k / 3) + 2)).2.le

/-- Witness for `position_within_range`: default ranges, one particle, the
Y-axis slot `k = 1`. -/
theorem position_within_range_w :
    UnitStream (fun _ => 0) ∧ 0 ≤ defaultOptions.rangeX ∧
    0 ≤ defaultOptions.rangeY ∧ 0 ≤ defaultOptions.rangeZ ∧
    1 < (newParticleSystem defaultOptions 1 (fun _ => 0) 1).position.length ∧
    (-(axisRange defaultOptions (1 % 3) / 2)
        ≤ (newParticleSystem defaultOptions 1 (fun _ => 0) 1).position.getD 1 0 ∧
     (newParticleSystem defaultOptions 1 (fun _ => 0) 1).position.getD 1 0
        ≤ axisRange defaultOptions (1 % 3) / 2) :=
  ⟨fun _ => ⟨le_rfl, by norm_num⟩, by decide, by decide, by decide,
    by simp [newParticleSystem_position_length],
    position_within_range defaultOptions 1 (fun _ => 0) 1 1
      (fun _ => ⟨le_rfl, by norm_num⟩) (by decide) (by decide) (by decide)
      (by simp [newParticleSystem_position_length])⟩

/-! ### C8: vertex shader displacement -/

theorem glslMod_bounds (x y : ℚ) (hy : 0 < y) :
    0 ≤ glslMod x y ∧ glslMod x y < y := by
  unfold glslMod
  have h1 : ((⌊x / y⌋ : ℤ) : ℚ) ≤ x / y := Int.floor_le _
  have h2 : x / y < ((⌊x / y⌋ : ℤ) : ℚ) + 1 := Int.lt_floor_add_one _
  have hxy : y * (x / y) = x := by
    field_simp
  have hA : y * ((⌊x / y⌋ : ℤ) : ℚ) ≤ y * (x / y) :=
    mul_le_mul_of_nonneg_left h1 hy.le
  have hB : y * (x / y) < y * (((⌊x / y⌋ : ℤ) : ℚ) + 1) :=
    mul_lt_mul_of_pos_left h2 hy
  rw [hxy] at hA hB
  rw [mul_add, mul_one] at hB
  constructor <;> linarith

/-- C8: the vertex stage's Y displacement is a modulo wraparound over
`rangeY` driven by `uTime * velocityY`, so the displaced Y coordinate lies
within `[-rangeY/2, rangeY/2]` for every time, velocity and input position;
the X displacement adds the sine/cosine product `s * c * (amplitudeX * 10)`,
bounded by `±(amplitudeX * 10)` whenever `s` and `c` lie in `[-1, 1]`. -/
theorem vertex_displacement_bounds (posY uTime velY rangeY posX s c amplX : ℚ)
    (hrange : 0 < rangeY) (hs1 : -1 ≤ s) (hs2 : s ≤ 1) (hc1 : -1 ≤ c)
    (hc2 : c ≤ 1) (hamp : 0 ≤ amplX) :
    (-(rangeY / 2) ≤ vertexNewPosY posY uTime velY rangeY ∧
     vertexNewPosY posY uTime velY rangeY ≤ rangeY / 2) ∧
    (posX - amplX * 10 ≤ vertexNewPosX posX s c amplX ∧
     vertexNewPosX posX s c amplX ≤ posX + amplX * 10) := by
  constructor
  · have h := glslMod_bounds (posY - uTime * (-velY) * 10) rangeY hrange
    unfold vertexNewPosY
    constructor <;> linarith [h.1, h.2]
  · unfold vertexNewPosX
    have hsc1 : -1 ≤ s * c := by nlinarith
    have hsc2 : s * c ≤ 1 := by nlinarith
    constructor <;> nlinarith

/-- Witness for `vertex_displacement_bounds` at the default `rangeY = 400`
and `amplitudeX = 4`, with `uTime = 7`, `velocityY = 2`, `sin = 0`,
`cos = 1`. -/
theorem vertex_displacement_bounds_w :
    (0 < (400 : ℚ) ∧ -1 ≤ (0 : ℚ) ∧ (0 : ℚ) ≤ 1 ∧ -1 ≤ (1 : ℚ) ∧
     (1 : ℚ) ≤ 1 ∧ 0 ≤ (4 : ℚ)) ∧
    ((-((400 : ℚ) / 2) ≤ vertexNewPosY 123 7 2 400 ∧
      vertexNewPosY 123 7 2 400 ≤ 400 / 2) ∧
     ((5 : ℚ) - 4 * 10 ≤ vertexNewPosX 5 0 1 4 ∧
      vertexNewPosX 5 0 1 4 ≤ 5 + 4 * 10)) :=
  ⟨⟨by decide, by decide, by decide, by decide, by decide, by decide⟩,
    vertex_displacement_bounds 123 7 2 400 5 0 1 4 (by decide) (by decide)
      (by decide) (by decide) (by decide) (by decide)⟩

end WebglSnow
